import Mathlib

/-!
Shallow embedding of the ACME certificate renewal logic of
`internal/server/acme/acme.go` and proofs of the specification claims.

The Go function `UpdateCertificate` is modelled as a pure function over an
environment record that fixes the outcome of every effectful step (file
reads, parses, subprocess run, per-attempt CA results), together with a
trace record of the observable side effects (buffer deletion, temp dir
creation, subprocess invocation and its argument list, retry counts and
backoff sleeps).  Time is an integer (nanoseconds, as in Go).
-/

namespace Acme

/-- Number of registration / issuance retries, from `const retries = 5`. -/
def retries : Nat := 5

/-- One day in nanoseconds (Go `24 * time.Hour`). -/
def day : Int := 24 * 60 * 60 * 1000000000

/-- The relevant attributes of a parsed x509 certificate: its DNS names and
its `NotAfter` instant (nanoseconds). -/
structure Cert where
  dnsNames : List String
  notAfter : Int
deriving DecidableEq, Repr

/-- Embedding of `certificateNeedsUpdate` (acme.go line 41): true if the
domain is not among the certificate DNS names, or `time.Now()` is strictly
after `NotAfter - 30 days`. -/
def certificateNeedsUpdate (now : Int) (domain : String) (cert : Cert) : Bool :=
  !(cert.dnsNames.contains domain) || decide (cert.notAfter - 30 * day < now)

/-- Outcome of one CA attempt (registration or issuance): success carrying a
result, or an error that is either rate-limit classified
(`urn:ietf:params:acme:error:rateLimited`) or generic, with a payload
identifying the underlying cause. -/
inductive AttemptResult (α : Type) where
  | ok : α → AttemptResult α
  | err : Bool → String → AttemptResult α
deriving DecidableEq, Repr

/-- Result of running one of the Go retry loops: the successful value if
any, the error in scope when the loop exits (rate-limit flag and payload;
`none` exactly when the loop exited via success), the number of attempts
made, and the number of 10-second backoff sleeps performed. -/
structure RetryResult (α : Type) where
  value : Option α
  lastErr : Option (Bool × String)
  attempts : Nat
  sleeps : Nat
deriving DecidableEq, Repr

/-- Embedding of the Go retry loop pattern shared by registration
(acme.go lines 192-206) and issuance (lines 226-240):

```
for i := 0; i < retries; i++ {
    v, err = attempt(i)
    if err == nil { break }
    if rateLimited(err) { break }
    sleep(10s)
}
```

`f i` is the outcome of attempt `i`; the `Nat` fuel argument is the number
of loop iterations remaining. -/
def retryGo (f : Nat → AttemptResult α) (i : Nat) : Nat → RetryResult α
  | 0 => ⟨none, none, 0, 0⟩
  | fuel + 1 =>
    match f i with
    | .ok a => ⟨some a, none, 1, 0⟩
    | .err rate p =>
      if rate then ⟨none, some (true, p), 1, 0⟩
      else
        let rest := retryGo f (i + 1) fuel
        ⟨rest.value,
         if rest.attempts = 0 then some (false, p) else rest.lastErr,
         rest.attempts + 1, rest.sleeps + 1⟩

/-- The arguments of `UpdateCertificate` that the embedding depends on. -/
structure Args where
  challengeType : String
  clustered : Bool
  domain : String
  email : String
  caURL : String
  force : Bool
deriving DecidableEq, Repr

/-- Environment fixing the outcome of every effectful step of
`UpdateCertificate`.  `none` in an `Option` field means the corresponding
Go call returned an error. -/
structure Env where
  /-- `time.Now()`. -/
  now : Int
  /-- `util.PathExists(clusterCertFilename)`. -/
  bufferExists : Bool
  /-- `os.ReadFile(clusterCertFilename)`: the PEM bytes, or a read error. -/
  clusterCertRead : Option String
  /-- `os.ReadFile(keyFilename)` for `cluster.key`. -/
  clusterKeyRead : Option String
  /-- `tls.X509KeyPair(clusterCert, key)`: success or error. -/
  clusterKeyPair : Option Unit
  /-- `x509.ParseCertificate(keyPair.Certificate[0])` for the buffer. -/
  clusterParsed : Option Cert
  /-- `internalUtil.LoadCert(s.OS.VarDir)`: success or error. -/
  activeLoad : Option Unit
  /-- `x509.ParseCertificate` of the active certificate. -/
  activeParsed : Option Cert
  /-- `s.GlobalConfig.ACMEDNS()` first result: the DNS provider id. -/
  dnsProvider : String
  /-- `s.GlobalConfig.ACMEDNS()` second result: provider env vars. -/
  dnsEnvironment : List String
  /-- `s.GlobalConfig.ACMEDNS()` third result: resolver overrides. -/
  dnsResolvers : List String
  /-- `os.MkdirTemp("", "lego")`: the temp dir path, or an error. -/
  mkTmpDir : Option String
  /-- `subprocess.RunCommandSplit(..., "lego", args...)`: success or error. -/
  legoRun : Option Unit
  /-- `localtls.KeyPairAndCA(tmpDir+"/certificates", ...)`: the resulting
  (public key PEM, private key PEM), or an error. -/
  legoCertLoad : Option (String × String)
  /-- `ecdsa.GenerateKey(elliptic.P256(), rand.Reader)`. -/
  genKey : Option Unit
  /-- `lego.NewClient(config)`. -/
  newClient : Option Unit
  /-- `provider.RegisterWithSolver(client.Challenge)`. -/
  registerSolver : Option Unit
  /-- Outcome of registration attempt `i`
  (`client.Registration.Register`). -/
  regResults : Nat → AttemptResult Unit
  /-- Outcome of issuance attempt `i` (`client.Certificate.Obtain`),
  carrying (certificate PEM, private key PEM) on success. -/
  obtainResults : Nat → AttemptResult (String × String)

/-- The value `UpdateCertificate` returns: an error with the message of the
wrapping `fmt.Errorf` (suffixed with the wrapped payload for the retry
loops), the `nil, nil` "no renewal needed" return, or a
`certificate.Resource` with certificate and private key bytes. -/
inductive Outcome where
  | failure : String → Outcome
  | noRenewal : Outcome
  | success : String → String → Outcome
deriving DecidableEq, Repr

/-- Observable side effects of one `UpdateCertificate` call. -/
structure Trace where
  /-- `os.Remove(clusterCertFilename)` was invoked (acme.go lines 85-87). -/
  bufferDeleted : Bool := false
  /-- `os.MkdirTemp` succeeded and a temp dir exists during the call. -/
  tmpDirCreated : Bool := false
  /-- The `lego` subprocess was invoked. -/
  subprocessInvoked : Bool := false
  /-- The argument list passed to the `lego` subprocess. -/
  legoArgs : Option (List String) := none
  /-- The `config.CADirURL` value set on the lego client config. -/
  caDirURL : Option String := none
  /-- Registration attempts made. -/
  regAttempts : Nat := 0
  /-- Backoff sleeps in the registration loop. -/
  regSleeps : Nat := 0
  /-- Issuance attempts made. -/
  obtainAttempts : Nat := 0
  /-- Backoff sleeps in the issuance loop. -/
  obtainSleeps : Nat := 0
deriving DecidableEq, Repr

/-- Payload of the error in scope after a retry loop (empty when none). -/
def errPayload : Option (Bool × String) → String
  | none => ""
  | some e => e.2

/-- DNS-01 branch of `UpdateCertificate` (acme.go lines 105-155): provider
configuration check, temp dir creation, lego subprocess invocation with the
exact argument list, and loading of the resulting key pair. -/
def dns01Flow (env : Env) (a : Args) : Outcome × Trace :=
  if env.dnsProvider == "" then
    (.failure "DNS-01 challenge type requires acme.dns.provider configuration key to be set", {})
  else
    match env.mkTmpDir with
    | none => (.failure "Failed to create temporary directory", {})
    | some tmpDir =>
      let args0 := ["--accept-tos", "--dns", env.dnsProvider, "--domains", a.domain,
                    "--email", a.email, "--path", tmpDir, "--server", a.caURL]
      let args1 :=
        if env.dnsResolvers.length > 0 then
          env.dnsResolvers.foldl (fun acc r => acc ++ ["--dns.resolvers", r]) args0
        else args0
      let args2 := args1 ++ ["run"]
      let t : Trace := { tmpDirCreated := true, subprocessInvoked := true, legoArgs := some args2 }
      match env.legoRun with
      | none => (.failure "Failed to run lego command", t)
      | some _ =>
        match env.legoCertLoad with
        | none => (.failure "Failed to load certificate and key file", t)
        | some pk => (.success pk.1 pk.2, t)

/-- HTTP-01 branch of `UpdateCertificate` (acme.go lines 157-248): account
key generation, client config with CA directory URL defaulting, client and
solver setup, then the registration and issuance retry loops. -/
def http01Flow (env : Env) (a : Args) : Outcome × Trace :=
  match env.genKey with
  | none => (.failure "Failed generating private key for user account", {})
  | some _ =>
    let caDirURL :=
      if a.caURL != "" then a.caURL
      else "https://acme-v02.api.letsencrypt.org/directory"
    match env.newClient with
    | none => (.failure "Failed to create new client", { caDirURL := some caDirURL })
    | some _ =>
      match env.registerSolver with
      | none => (.failure "Failed setting challenge provider", { caDirURL := some caDirURL })
      | some _ =>
        let regRes := retryGo env.regResults 0 retries
        let t1 : Trace := { caDirURL := some caDirURL,
                            regAttempts := regRes.attempts, regSleeps := regRes.sleeps }
        match regRes.value with
        | none => (.failure ("Failed to register user: " ++ errPayload regRes.lastErr), t1)
        | some _ =>
          let obRes := retryGo env.obtainResults 0 retries
          let t2 : Trace := { t1 with obtainAttempts := obRes.attempts, obtainSleeps := obRes.sleeps }
          match obRes.value with
          | none => (.failure ("Failed to obtain certificate: " ++ errPayload obRes.lastErr), t2)
          | some certs => (.success certs.1 certs.2, t2)

/-- `UpdateCertificate` after the cluster-buffer block (acme.go lines
85-155 and onward): unconditional best-effort deletion of the buffer file
when it exists, loading and parsing of the active certificate, the
freshness short-circuit, and dispatch on the challenge type. -/
def afterBuffer (env : Env) (a : Args) : Outcome × Trace :=
  let res :=
    match env.activeLoad with
    | none => ((.failure "Failed to load certificate and key file" : Outcome), ({} : Trace))
    | some _ =>
      match env.activeParsed with
      | none => (.failure "Failed to parse certificate", {})
      | some cert =>
        if !a.force && !(certificateNeedsUpdate env.now a.domain cert) then
          (.noRenewal, {})
        else if a.challengeType == "DNS-01" then dns01Flow env a
        else http01Flow env a
  (res.1, { res.2 with bufferDeleted := env.bufferExists })

/-- Embedding of `UpdateCertificate` (acme.go lines 46-249).  The first
block (lines 54-83) consults the cluster certificate buffer when clustered
and not forced: read failures of the buffered certificate or key, key-pair
mismatch and parse failures are returned as errors; a buffered certificate
that is still fresh for the domain is returned as-is; otherwise the call
falls through to `afterBuffer`. -/
def updateCertificate (env : Env) (a : Args) : Outcome × Trace :=
  if !a.force && a.clustered && env.bufferExists then
    match env.clusterCertRead with
    | none => (.failure "Failed reading cluster certificate file", {})
    | some clusterCert =>
      match env.clusterKeyRead with
      | none => (.failure "Failed reading cluster key file", {})
      | some key =>
        match env.clusterKeyPair with
        | none => (.failure "Failed to get keypair", {})
        | some _ =>
          match env.clusterParsed with
          | none => (.failure "Failed to parse certificate", {})
          | some cert =>
            if !(certificateNeedsUpdate env.now a.domain cert) then
              (.success clusterCert key, {})
            else afterBuffer env a
  else afterBuffer env a

/-- The retry loop makes at most `fuel` attempts. -/
theorem retryGo_attempts_le {α : Type} (f : Nat → AttemptResult α) :
    ∀ (fuel i : Nat), (retryGo f i fuel).attempts ≤ fuel := by
  intro fuel
  induction fuel with
  | zero => intro i; simp [retryGo]
  | succ n ih =>
    intro i
    rw [retryGo]
    cases hf : f i with
    | ok a => simp
    | err rate p =>
      cases rate with
      | true => simp
      | false =>
        simp only [if_neg, Bool.false_eq_true, if_false]
        exact Nat.succ_le_succ (ih (i + 1))

/-- If attempts `i, ..., i+k-1` fail with generic errors and attempt `i+k`
succeeds, the loop exits with the value after `k+1` attempts and `k`
backoff sleeps. -/
theorem retryGo_ok_at {α : Type} (f : Nat → AttemptResult α) (a : α) :
    ∀ (k i fuel : Nat), k < fuel →
      (∀ j, j < k → ∃ q, f (i + j) = .err false q) →
      f (i + k) = .ok a →
      retryGo f i fuel = ⟨some a, none, k + 1, k⟩ := by
  intro k
  induction k with
  | zero =>
    intro i fuel hlt hpre hok
    obtain ⟨m, rfl⟩ : ∃ m, fuel = m + 1 := ⟨fuel - 1, by omega⟩
    have h0 : f i = .ok a := by simpa using hok
    simp [retryGo, h0]
  | succ n ih =>
    intro i fuel hlt hpre hok
    obtain ⟨m, rfl⟩ : ∃ m, fuel = m + 1 := ⟨fuel - 1, by omega⟩
    obtain ⟨q, hq⟩ := hpre 0 (Nat.succ_pos n)
    have hq' : f i = .err false q := by simpa using hq
    have hrec : retryGo f (i + 1) m = ⟨some a, none, n + 1, n⟩ := by
      refine ih (i + 1) m (by omega) ?_ ?_
      · intro j hj
        obtain ⟨r, hr⟩ := hpre (j + 1) (by omega)
        exact ⟨r, by rw [show i + 1 + j = i + (j + 1) by omega]; exact hr⟩
      · rw [show i + 1 + n = i + (n + 1) by omega]; exact hok
    simp [retryGo, hq', hrec]

/-- If attempts `i, ..., i+k-1` fail with generic errors and attempt `i+k`
fails rate-limit classified, the loop aborts right there: `k+1` attempts,
`k` sleeps (none after the rate-limited attempt), no value, and the
rate-limit error in scope. -/
theorem retryGo_rate_at {α : Type} (f : Nat → AttemptResult α) (p : String) :
    ∀ (k i fuel : Nat), k < fuel →
      (∀ j, j < k → ∃ q, f (i + j) = .err false q) →
      f (i + k) = .err true p →
      retryGo f i fuel = ⟨none, some (true, p), k + 1, k⟩ := by
  intro k
  induction k with
  | zero =>
    intro i fuel hlt hpre hrl
    obtain ⟨m, rfl⟩ : ∃ m, fuel = m + 1 := ⟨fuel - 1, by omega⟩
    have h0 : f i = .err true p := by simpa using hrl
    simp [retryGo, h0]
  | succ n ih =>
    intro i fuel hlt hpre hrl
    obtain ⟨m, rfl⟩ : ∃ m, fuel = m + 1 := ⟨fuel - 1, by omega⟩
    obtain ⟨q, hq⟩ := hpre 0 (Nat.succ_pos n)
    have hq' : f i = .err false q := by simpa using hq
    have hrec : retryGo f (i + 1) m = ⟨none, some (true, p), n + 1, n⟩ := by
      refine ih (i + 1) m (by omega) ?_ ?_
      · intro j hj
        obtain ⟨r, hr⟩ := hpre (j + 1) (by omega)
        exact ⟨r, by rw [show i + 1 + j = i + (j + 1) by omega]; exact hr⟩
      · rw [show i + 1 + n = i + (n + 1) by omega]; exact hrl
    simp [retryGo, hq', hrec]

/-- If every attempt up to `i+k` fails with a generic error, a loop with
budget `k+1` exhausts it: `k+1` attempts, `k+1` sleeps (the Go loop sleeps
after the last failed attempt too), and the last error in scope. -/
theorem retryGo_last_err {α : Type} (f : Nat → AttemptResult α) (p : String) :
    ∀ (k i : Nat),
      (∀ j, j < k → ∃ q, f (i + j) = .err false q) →
      f (i + k) = .err false p →
      retryGo f i (k + 1) = ⟨none, some (false, p), k + 1, k + 1⟩ := by
  intro k
  induction k with
  | zero =>
    intro i hpre hlast
    have h0 : f i = .err false p := by simpa using hlast
    simp [retryGo, h0]
  | succ n ih =>
    intro i hpre hlast
    obtain ⟨q, hq⟩ := hpre 0 (Nat.succ_pos n)
    have hq' : f i = .err false q := by simpa using hq
    have hrec : retryGo f (i + 1) (n + 1) = ⟨none, some (false, p), n + 1, n + 1⟩ := by
      refine ih (i + 1) ?_ ?_
      · intro j hj
        obtain ⟨r, hr⟩ := hpre (j + 1) (by omega)
        exact ⟨r, by rw [show i + 1 + j = i + (j + 1) by omega]; exact hr⟩
      · rw [show i + 1 + n = i + (n + 1) by omega]; exact hlast
    rw [retryGo, hq']
    simp [hrec]

/-- The trace of `afterBuffer` records the buffer deletion exactly when the
buffer file existed. -/
theorem afterBuffer_bufferDeleted (env : Env) (a : Args) :
    (afterBuffer env a).2.bufferDeleted = env.bufferExists := rfl

/-- C1: `certificateNeedsUpdate(d, c)` is true iff `d` is not among the
certificate DNS names or the current time is strictly after
`NotAfter - 30 days` (equivalently, `now + 30 days` is past the expiry);
it is a pure function of the domain, the certificate and the clock. -/
theorem certificateNeedsUpdate_iff (now : Int) (d : String) (c : Cert) :
    certificateNeedsUpdate now d c = true ↔
      (d ∉ c.dnsNames ∨ c.notAfter - 30 * day < now) := by
  simp [certificateNeedsUpdate]

/-- A fully successful environment, used as the base of concrete test
environments: every effectful step succeeds, the certificates cover
`example.org` and expire 100 days after `now = 0`. -/
def baseEnv : Env where
  now := 0
  bufferExists := false
  clusterCertRead := some "BUFCERT"
  clusterKeyRead := some "BUFKEY"
  clusterKeyPair := some ()
  clusterParsed := some ⟨["example.org"], 100 * day⟩
  activeLoad := some ()
  activeParsed := some ⟨["example.org"], 100 * day⟩
  dnsProvider := "cloudflare"
  dnsEnvironment := []
  dnsResolvers := []
  mkTmpDir := some "/tmp/lego123"
  legoRun := some ()
  legoCertLoad := some ("LEGOPUB", "LEGOKEY")
  genKey := some ()
  newClient := some ()
  registerSolver := some ()
  regResults := fun _ => .ok ()
  obtainResults := fun _ => .ok ("CHAIN", "SRVKEY")

/-- C2: when clustered, not forced, the buffer file exists and its content
is readable, a valid key pair, and still fresh for the domain,
`UpdateCertificate` returns the buffered certificate and key with an empty
effect trace: no registration attempt, no issuance attempt, no
subprocess. -/
theorem buffered_fast_path (env : Env) (a : Args) (cb kb : String) (c : Cert)
    (hc : a.clustered = true) (hf : a.force = false) (hb : env.bufferExists = true)
    (hr : env.clusterCertRead = some cb) (hk : env.clusterKeyRead = some kb)
    (hkp : env.clusterKeyPair = some ()) (hp : env.clusterParsed = some c)
    (hfresh : certificateNeedsUpdate env.now a.domain c = false) :
    updateCertificate env a = (.success cb kb, {}) ∧
    (updateCertificate env a).2.regAttempts = 0 ∧
    (updateCertificate env a).2.obtainAttempts = 0 ∧
    (updateCertificate env a).2.subprocessInvoked = false := by
  have h : updateCertificate env a = (.success cb kb, {}) := by
    simp [updateCertificate, hc, hf, hb, hr, hk, hkp, hp, hfresh]
  exact ⟨h, by rw [h], by rw [h], by rw [h]⟩

/-- Concrete environment for the buffered fast path: fresh buffer. -/
def envFresh : Env := { baseEnv with bufferExists := true }

/-- Arguments of a clustered, non-forced renewal for `example.org`. -/
def argsClustered : Args :=
  ⟨"HTTP-01", true, "example.org", "admin@example.org", "", false⟩

/-- Witness for C2 at a concrete environment. -/
theorem buffered_fast_path_witness :
    certificateNeedsUpdate envFresh.now argsClustered.domain
        ⟨["example.org"], 100 * day⟩ = false ∧
    updateCertificate envFresh argsClustered = (.success "BUFCERT" "BUFKEY", {}) :=
  ⟨by decide,
   (buffered_fast_path envFresh argsClustered "BUFCERT" "BUFKEY"
      ⟨["example.org"], 100 * day⟩ rfl rfl rfl rfl rfl rfl rfl (by decide)).1⟩

/-- C3: in both retry loops a rate-limit-classified failure at attempt
`k+1` (after generic failures before it) stops the loop at exactly `k+1`
attempts with no backoff sleep after it, and the HTTP-01 flow surfaces the
rate-limit error to the caller wrapped in the phase message. -/
theorem rate_limit_stops_retries (k : Nat) (p : String)
    (f : Nat → AttemptResult Unit) (g : Nat → AttemptResult (String × String))
    (hk : k < retries)
    (hfpre : ∀ j, j < k → ∃ q, f j = .err false q) (hf : f k = .err true p)
    (hgpre : ∀ j, j < k → ∃ q, g j = .err false q) (hg : g k = .err true p) :
    retryGo f 0 retries = ⟨none, some (true, p), k + 1, k⟩ ∧
    retryGo g 0 retries = ⟨none, some (true, p), k + 1, k⟩ ∧
    (∀ env a, env.genKey = some () → env.newClient = some () →
      env.registerSolver = some () → env.regResults = f →
      (http01Flow env a).1 = .failure ("Failed to register user: " ++ p) ∧
      (http01Flow env a).2.regAttempts = k + 1 ∧
      (http01Flow env a).2.regSleeps = k) ∧
    (∀ env a, env.genKey = some () → env.newClient = some () →
      env.registerSolver = some () → env.regResults = (fun _ => .ok ()) →
      env.obtainResults = g →
      (http01Flow env a).1 = .failure ("Failed to obtain certificate: " ++ p) ∧
      (http01Flow env a).2.obtainAttempts = k + 1 ∧
      (http01Flow env a).2.obtainSleeps = k) := by
  have hfr : retryGo f 0 retries = ⟨none, some (true, p), k + 1, k⟩ :=
    retryGo_rate_at f p k 0 retries hk (by simpa using hfpre) (by simpa using hf)
  have hgr : retryGo g 0 retries = ⟨none, some (true, p), k + 1, k⟩ :=
    retryGo_rate_at g p k 0 retries hk (by simpa using hgpre) (by simpa using hg)
  have hok : retryGo (fun _ => (AttemptResult.ok () : AttemptResult Unit)) 0 retries
      = ⟨some (), none, 1, 0⟩ := rfl
  refine ⟨hfr, hgr, ?_, ?_⟩
  · intro env a hgk hn hs hreg
    simp [http01Flow, hgk, hn, hs, hreg, hfr, errPayload]
  · intro env a hgk hn hs hreg hob
    simp [http01Flow, hgk, hn, hs, hreg, hob, hok, hgr, errPayload]

/-- Registration attempts that are rate limited from the start. -/
def rlReg : Nat → AttemptResult Unit := fun _ => .err true "rateLimited"

/-- Issuance attempts that are rate limited from the start. -/
def rlObtain : Nat → AttemptResult (String × String) := fun _ => .err true "rateLimited"

/-- Witness for C3: a rate-limited first attempt stops both loops after
exactly one attempt and zero sleeps. -/
theorem rate_limit_stops_retries_witness :
    (0 : Nat) < retries ∧ rlReg 0 = .err true "rateLimited" ∧
    retryGo rlReg 0 retries = ⟨none, some (true, "rateLimited"), 1, 0⟩ ∧
    retryGo rlObtain 0 retries = ⟨none, some (true, "rateLimited"), 1, 0⟩ :=
  ⟨by decide, rfl,
   (rate_limit_stops_retries 0 "rateLimited" rlReg rlObtain (by decide)
      (by intro j hj; omega) rfl (by intro j hj; omega) rfl).1,
   (rate_limit_stops_retries 0 "rateLimited" rlReg rlObtain (by decide)
      (by intro j hj; omega) rfl (by intro j hj; omega) rfl).2.1⟩

/-- C4: the retry budget is 5 and each loop makes at most 5 attempts; four
generic failures followed by success yield success after exactly 4 backoff
sleeps; five generic failures exhaust the budget (with 5 sleeps, one after
each failure) and the flow returns a terminal error wrapping the last
underlying cause. -/
theorem retry_budget_and_backoff (ps qs : Nat → String) (v : String × String)
    (f : Nat → AttemptResult (String × String)) (g : Nat → AttemptResult Unit)
    (hfail : ∀ j, j < 4 → f j = .err false (ps j)) (hok : f 4 = .ok v)
    (hgall : ∀ j, j < 5 → g j = .err false (qs j)) :
    retries = 5 ∧
    (∀ (h : Nat → AttemptResult Unit) (i : Nat), (retryGo h i retries).attempts ≤ 5) ∧
    (∀ (h : Nat → AttemptResult (String × String)) (i : Nat),
      (retryGo h i retries).attempts ≤ 5) ∧
    retryGo f 0 retries = ⟨some v, none, 5, 4⟩ ∧
    retryGo g 0 retries = ⟨none, some (false, qs 4), 5, 5⟩ ∧
    (∀ env a, env.genKey = some () → env.newClient = some () →
      env.registerSolver = some () → env.regResults = (fun _ => .ok ()) →
      env.obtainResults = f →
      (http01Flow env a).1 = .success v.1 v.2 ∧
      (http01Flow env a).2.obtainAttempts = 5 ∧
      (http01Flow env a).2.obtainSleeps = 4) ∧
    (∀ env a, env.genKey = some () → env.newClient = some () →
      env.registerSolver = some () → env.regResults = g →
      (http01Flow env a).1 = .failure ("Failed to register user: " ++ qs 4)) := by
  have hfr : retryGo f 0 retries = ⟨some v, none, 5, 4⟩ := by
    have := retryGo_ok_at f v 4 0 retries (by decide)
      (fun j hj => ⟨ps j, by simpa using hfail j hj⟩) (by simpa using hok)
    simpa using this
  have hgr : retryGo g 0 retries = ⟨none, some (false, qs 4), 5, 5⟩ := by
    have := retryGo_last_err g (qs 4) 4 0
      (fun j hj => ⟨qs j, by simpa using hgall j (by omega)⟩)
      (by simpa using hgall 4 (by omega))
    simpa [retries] using this
  have hokreg : retryGo (fun _ => (AttemptResult.ok () : AttemptResult Unit)) 0 retries
      = ⟨some (), none, 1, 0⟩ := rfl
  refine ⟨rfl, fun h i => retryGo_attempts_le h retries i,
    fun h i => retryGo_attempts_le h retries i, hfr, hgr, ?_, ?_⟩
  · intro env a hgk hn hs hreg hob
    simp [http01Flow, hgk, hn, hs, hreg, hob, hokreg, hfr]
  · intro env a hgk hn hs hreg
    simp [http01Flow, hgk, hn, hs, hreg, hgr, errPayload]

/-- Issuance attempts failing generically four times, then succeeding. -/
def flakyObtain : Nat → AttemptResult (String × String) :=
  fun j => if j < 4 then .err false "transient" else .ok ("CHAIN", "SRVKEY")

/-- Registration attempts that always fail generically. -/
def alwaysFailReg : Nat → AttemptResult Unit := fun _ => .err false "transient"

/-- Witness for C4 at concrete attempt outcomes. -/
theorem retry_budget_and_backoff_witness :
    flakyObtain 4 = .ok ("CHAIN", "SRVKEY") ∧
    retryGo flakyObtain 0 retries = ⟨some ("CHAIN", "SRVKEY"), none, 5, 4⟩ ∧
    retryGo alwaysFailReg 0 retries = ⟨none, some (false, "transient"), 5, 5⟩ :=
  ⟨rfl,
   (retry_budget_and_backoff (fun _ => "transient") (fun _ => "transient")
      ("CHAIN", "SRVKEY") flakyObtain alwaysFailReg
      (by intro j hj; simp [flakyObtain, hj]) (by rfl)
      (by intro j hj; rfl)).2.2.2.1,
   (retry_budget_and_backoff (fun _ => "transient") (fun _ => "transient")
      ("CHAIN", "SRVKEY") flakyObtain alwaysFailReg
      (by intro j hj; simp [flakyObtain, hj]) (by rfl)
      (by intro j hj; rfl)).2.2.2.2.1⟩

/-- Environment with an existing but unreadable cluster buffer file. -/
def envUnreadableBuffer : Env :=
  { baseEnv with bufferExists := true, clusterCertRead := none }

/-- C5 counterexample: with a clustered, non-forced call and an existing
but unreadable buffer certificate file, `UpdateCertificate` returns the
storage error as a hard failure of the whole renewal; it does not proceed
to issuance (no buffer deletion, no attempts, no subprocess), contradicting
the claim that such a buffer is treated as "no usable buffer". -/
theorem buffer_storage_error_counterexample :
    envUnreadableBuffer.bufferExists = true ∧
    updateCertificate envUnreadableBuffer argsClustered =
      (.failure "Failed reading cluster certificate file", {}) ∧
    (updateCertificate envUnreadableBuffer argsClustered).2.regAttempts = 0 ∧
    (updateCertificate envUnreadableBuffer argsClustered).2.subprocessInvoked = false :=
  ⟨rfl, rfl, rfl, rfl⟩

/-- C5 amended: when the cluster buffer file exists on a clustered,
non-forced call, a read failure of the buffered certificate or key, an
invalid key pair, or an unparsable certificate is propagated as a hard
error of the renewal call; the call does not fall through to issuance. -/
theorem buffer_storage_error_is_fatal (env : Env) (a : Args)
    (hc : a.clustered = true) (hf : a.force = false) (hb : env.bufferExists = true) :
    (env.clusterCertRead = none →
      updateCertificate env a = (.failure "Failed reading cluster certificate file", {})) ∧
    (∀ cb, env.clusterCertRead = some cb → env.clusterKeyRead = none →
      updateCertificate env a = (.failure "Failed reading cluster key file", {})) ∧
    (∀ cb kb, env.clusterCertRead = some cb → env.clusterKeyRead = some kb →
      env.clusterKeyPair = none →
      updateCertificate env a = (.failure "Failed to get keypair", {})) ∧
    (∀ cb kb, env.clusterCertRead = some cb → env.clusterKeyRead = some kb →
      env.clusterKeyPair = some () → env.clusterParsed = none →
      updateCertificate env a = (.failure "Failed to parse certificate", {})) := by
  refine ⟨?_, ?_, ?_, ?_⟩
  · intro h1
    simp [updateCertificate, hc, hf, hb, h1]
  · intro cb h1 h2
    simp [updateCertificate, hc, hf, hb, h1, h2]
  · intro cb kb h1 h2 h3
    simp [updateCertificate, hc, hf, hb, h1, h2, h3]
  · intro cb kb h1 h2 h3 h4
    simp [updateCertificate, hc, hf, hb, h1, h2, h3, h4]

/-- Witness for the amended C5 at a concrete environment. -/
theorem buffer_storage_error_is_fatal_witness :
    argsClustered.clustered = true ∧ argsClustered.force = false ∧
    envUnreadableBuffer.bufferExists = true ∧
    (envUnreadableBuffer.clusterCertRead = none →
      updateCertificate envUnreadableBuffer argsClustered =
        (.failure "Failed reading cluster certificate file", {})) :=
  ⟨rfl, rfl, rfl,
   (buffer_storage_error_is_fatal envUnreadableBuffer argsClustered rfl rfl rfl).1⟩

/-- The DNS-01 branch never produces the "no renewal needed" outcome. -/
theorem dns01Flow_ne_noRenewal (env : Env) (a : Args) :
    (dns01Flow env a).1 ≠ Outcome.noRenewal := by
  rcases htd : env.mkTmpDir with _ | tmp <;>
    rcases hlr : env.legoRun with _ | u <;>
      rcases hlc : env.legoCertLoad with _ | pk <;>
        by_cases hp : env.dnsProvider = "" <;>
          simp [dns01Flow, htd, hlr, hlc, hp]

/-- The HTTP-01 branch never produces the "no renewal needed" outcome. -/
theorem http01Flow_ne_noRenewal (env : Env) (a : Args) :
    (http01Flow env a).1 ≠ Outcome.noRenewal := by
  rcases hgk : env.genKey with _ | u <;>
    rcases hn : env.newClient with _ | u2 <;>
      rcases hs : env.registerSolver with _ | u3 <;>
        rcases hr : (retryGo env.regResults 0 retries).value with _ | u4 <;>
          rcases ho : (retryGo env.obtainResults 0 retries).value with _ | pk <;>
            simp [http01Flow, hgk, hn, hs, hr, ho]

/-- C6: a forced call bypasses the cluster-buffer fast path entirely (the
call is the post-buffer flow), never reports "no renewal needed", and,
when the active certificate loads and parses, proceeds to the issuance
branch selected by the challenge type. -/
theorem force_bypasses_shortcircuits (env : Env) (a : Args) (hf : a.force = true) :
    updateCertificate env a = afterBuffer env a ∧
    (updateCertificate env a).1 ≠ Outcome.noRenewal ∧
    (∀ c, env.activeLoad = some () → env.activeParsed = some c →
      (updateCertificate env a).1 =
        (if a.challengeType == "DNS-01" then (dns01Flow env a).1
         else (http01Flow env a).1)) := by
  have h1 : updateCertificate env a = afterBuffer env a := by
    simp [updateCertificate, hf]
  refine ⟨h1, ?_, ?_⟩
  · rw [h1]
    rcases hal : env.activeLoad with _ | u
    · simp [afterBuffer, hal]
    · rcases hap : env.activeParsed with _ | c
      · simp [afterBuffer, hal, hap]
      · by_cases hct : a.challengeType = "DNS-01"
        · simpa [afterBuffer, hal, hap, hf, hct] using dns01Flow_ne_noRenewal env a
        · simpa [afterBuffer, hal, hap, hf, hct] using http01Flow_ne_noRenewal env a
  · intro c hal hap
    rw [h1]
    by_cases hct : a.challengeType = "DNS-01" <;>
      simp [afterBuffer, hal, hap, hf, hct]

/-- Forced, clustered renewal arguments for `example.org`. -/
def argsForced : Args :=
  ⟨"HTTP-01", true, "example.org", "admin@example.org", "", true⟩

/-- Witness for C6: even with a fresh buffered certificate available, a
forced call does not return it and does not report "no renewal needed". -/
theorem force_bypasses_shortcircuits_witness :
    argsForced.force = true ∧
    updateCertificate envFresh argsForced = afterBuffer envFresh argsForced ∧
    (updateCertificate envFresh argsForced).1 ≠ Outcome.noRenewal :=
  ⟨rfl,
   (force_bypasses_shortcircuits envFresh argsForced rfl).1,
   (force_bypasses_shortcircuits envFresh argsForced rfl).2.1⟩

/-- C7: when clustered, not forced, the buffer exists, is readable and
valid but stale for the requested domain, the call falls through to the
post-buffer flow and the buffer file deletion is performed there. -/
theorem stale_buffer_deleted (env : Env) (a : Args) (cb kb : String) (c : Cert)
    (hc : a.clustered = true) (hf : a.force = false) (hb : env.bufferExists = true)
    (hr : env.clusterCertRead = some cb) (hk : env.clusterKeyRead = some kb)
    (hkp : env.clusterKeyPair = some ()) (hp : env.clusterParsed = some c)
    (hstale : certificateNeedsUpdate env.now a.domain c = true) :
    updateCertificate env a = afterBuffer env a ∧
    (updateCertificate env a).2.bufferDeleted = true := by
  have h1 : updateCertificate env a = afterBuffer env a := by
    simp [updateCertificate, hc, hf, hb, hr, hk, hkp, hp, hstale]
  refine ⟨h1, ?_⟩
  rw [h1, afterBuffer_bufferDeleted, hb]

/-- Environment with a buffered certificate that is stale: its DNS names
do not include the requested domain. -/
def envStaleBuffer : Env :=
  { baseEnv with bufferExists := true,
                 clusterParsed := some ⟨["old.example.org"], 100 * day⟩,
                 activeParsed := some ⟨["old.example.org"], 100 * day⟩ }

/-- Witness for C7 at a concrete environment. -/
theorem stale_buffer_deleted_witness :
    certificateNeedsUpdate envStaleBuffer.now argsClustered.domain
        ⟨["old.example.org"], 100 * day⟩ = true ∧
    (updateCertificate envStaleBuffer argsClustered).2.bufferDeleted = true :=
  ⟨by decide,
   (stale_buffer_deleted envStaleBuffer argsClustered "BUFCERT" "BUFKEY"
      ⟨["old.example.org"], 100 * day⟩ rfl rfl rfl rfl rfl rfl rfl (by decide)).2⟩

/-- C8: a call that reaches the challenge dispatch (here: not clustered,
active certificate loaded, parsed and stale) with challenge type DNS-01
and an empty DNS provider returns the configuration error at once: no
temporary directory, no subprocess, no retry attempts. -/
theorem dns01_missing_provider (env : Env) (a : Args) (c : Cert)
    (ht : a.challengeType = "DNS-01") (hp : env.dnsProvider = "")
    (hcl : a.clustered = false)
    (hl : env.activeLoad = some ()) (hc : env.activeParsed = some c)
    (hstale : certificateNeedsUpdate env.now a.domain c = true) :
    updateCertificate env a =
      (.failure "DNS-01 challenge type requires acme.dns.provider configuration key to be set",
       { bufferDeleted := env.bufferExists }) ∧
    (updateCertificate env a).2.tmpDirCreated = false ∧
    (updateCertificate env a).2.subprocessInvoked = false ∧
    (updateCertificate env a).2.regAttempts = 0 ∧
    (updateCertificate env a).2.obtainAttempts = 0 := by
  have h1 : updateCertificate env a =
      (.failure "DNS-01 challenge type requires acme.dns.provider configuration key to be set",
       { bufferDeleted := env.bufferExists }) := by
    simp [updateCertificate, hcl, afterBuffer, hl, hc, hstale, ht, dns01Flow, hp]
  exact ⟨h1, by rw [h1], by rw [h1], by rw [h1], by rw [h1]⟩

/-- Environment with no DNS provider configured and a stale active
certificate. -/
def envNoDNSProvider : Env :=
  { baseEnv with dnsProvider := "",
                 activeParsed := some ⟨["old.example.org"], 100 * day⟩ }

/-- Non-clustered DNS-01 renewal arguments with an empty CA URL. -/
def argsDNS : Args :=
  ⟨"DNS-01", false, "example.org", "admin@example.org", "", false⟩

/-- Witness for C8 at a concrete environment. -/
theorem dns01_missing_provider_witness :
    argsDNS.challengeType = "DNS-01" ∧ envNoDNSProvider.dnsProvider = "" ∧
    updateCertificate envNoDNSProvider argsDNS =
      (.failure "DNS-01 challenge type requires acme.dns.provider configuration key to be set",
       { bufferDeleted := envNoDNSProvider.bufferExists }) :=
  ⟨rfl, rfl,
   (dns01_missing_provider envNoDNSProvider argsDNS
      ⟨["old.example.org"], 100 * day⟩ rfl rfl rfl rfl rfl (by decide)).1⟩

/-- Environment whose active certificate is stale for `example.org` while
the DNS provider is configured: the DNS-01 flow runs the subprocess. -/
def envDNS : Env :=
  { baseEnv with activeParsed := some ⟨["old.example.org"], 100 * day⟩ }

/-- C9 counterexample: a DNS-01 invocation with an empty caURL reaches
issuance (the lego subprocess is invoked), yet the `--server` argument it
uses is the empty string, not the production Let-s-Encrypt directory
endpoint, which appears nowhere in the argument list. -/
theorem default_ca_url_counterexample :
    argsDNS.caURL = "" ∧
    (updateCertificate envDNS argsDNS).2.subprocessInvoked = true ∧
    (updateCertificate envDNS argsDNS).2.legoArgs =
      some ["--accept-tos", "--dns", "cloudflare", "--domains", "example.org",
            "--email", "admin@example.org", "--path", "/tmp/lego123",
            "--server", "", "run"] ∧
    ((updateCertificate envDNS argsDNS).2.legoArgs.getD []).contains
        "https://acme-v02.api.letsencrypt.org/directory" = false :=
  ⟨rfl, rfl, rfl, by decide⟩

/-- Appending resolver flags by folding extends the argument list on the
right. -/
theorem foldl_resolvers_append (l : List String) :
    ∀ acc : List String,
      ∃ s, List.foldl (fun acc r => acc ++ ["--dns.resolvers", r]) acc l = acc ++ s := by
  induction l with
  | nil => intro acc; exact ⟨[], by simp⟩
  | cons r t ih =>
    intro acc
    obtain ⟨s, hs⟩ := ih (acc ++ ["--dns.resolvers", r])
    exact ⟨["--dns.resolvers", r] ++ s, by simpa using hs⟩

/-- Whatever happens after the subprocess starts, the recorded lego
argument list begins with the eleven fixed arguments, ending with
`--server` followed by the caller caURL. -/
theorem dns01Flow_legoArgs (env : Env) (a : Args) (tmp : String)
    (hp : env.dnsProvider ≠ "") (htd : env.mkTmpDir = some tmp) :
    ∃ rest, (dns01Flow env a).2.legoArgs =
      some (["--accept-tos", "--dns", env.dnsProvider, "--domains", a.domain,
             "--email", a.email, "--path", tmp, "--server", a.caURL] ++ rest) := by
  have hp' : (env.dnsProvider == "") = false := by simpa using hp
  rcases hlr : env.legoRun with _ | u <;>
    rcases hlc : env.legoCertLoad with _ | pk <;>
    · by_cases hres : env.dnsResolvers.length > 0
      · obtain ⟨s, hs⟩ := foldl_resolvers_append env.dnsResolvers
          ["--accept-tos", "--dns", env.dnsProvider, "--domains", a.domain,
           "--email", a.email, "--path", tmp, "--server", a.caURL]
        exact ⟨s ++ ["run"], by simp [dns01Flow, hp', htd, hlr, hlc, hres, hs]⟩
      · exact ⟨["run"], by simp [dns01Flow, hp', htd, hlr, hlc, hres]⟩

/-- In every branch after account-key generation, the HTTP-01 flow records
as CADirURL the caller's caURL when nonempty and the production endpoint
otherwise. -/
theorem http01Flow_caDirURL (env : Env) (a : Args) (hgk : env.genKey = some ()) :
    (http01Flow env a).2.caDirURL =
      some (if a.caURL != "" then a.caURL
            else "https://acme-v02.api.letsencrypt.org/directory") := by
  rcases hn : env.newClient with _ | u <;>
    rcases hs : env.registerSolver with _ | u2 <;>
      rcases hr : (retryGo env.regResults 0 retries).value with _ | u3 <;>
        rcases ho : (retryGo env.obtainResults 0 retries).value with _ | pk <;>
          simp [http01Flow, hgk, hn, hs, hr, ho]

/-- C9 amended: on the HTTP-01 path an empty caURL is replaced by the
production endpoint as CADirURL and a nonempty caURL is used verbatim; on
the DNS-01 path the caURL is passed verbatim (even when empty) to the
subprocess as the value following `--server`, with no defaulting. -/
theorem default_ca_url (env : Env) (a : Args) :
    (env.genKey = some () → a.caURL = "" →
      (http01Flow env a).2.caDirURL =
        some "https://acme-v02.api.letsencrypt.org/directory") ∧
    (env.genKey = some () → a.caURL ≠ "" →
      (http01Flow env a).2.caDirURL = some a.caURL) ∧
    (∀ tmp, env.dnsProvider ≠ "" → env.mkTmpDir = some tmp →
      ∃ l, (dns01Flow env a).2.legoArgs = some l ∧
        l.get? 9 = some "--server" ∧ l.get? 10 = some a.caURL) := by
  refine ⟨?_, ?_, ?_⟩
  · intro hgk hurl
    rw [http01Flow_caDirURL env a hgk]
    simp [hurl]
  · intro hgk hurl
    rw [http01Flow_caDirURL env a hgk]
    simp [hurl]
  · intro tmp hp htd
    obtain ⟨rest, hrest⟩ := dns01Flow_legoArgs env a tmp hp htd
    exact ⟨_, hrest, by simp, by simp⟩

/-- Witness for the amended C9 at concrete inputs: empty caURL on the
HTTP-01 path yields the production endpoint, and the DNS-01 argument list
carries the empty string after `--server`. -/
theorem default_ca_url_witness :
    baseEnv.genKey = some () ∧ argsClustered.caURL = "" ∧
    (http01Flow baseEnv argsClustered).2.caDirURL =
      some "https://acme-v02.api.letsencrypt.org/directory" ∧
    (∃ l, (dns01Flow envDNS argsDNS).2.legoArgs = some l ∧
      l.get? 9 = some "--server" ∧ l.get? 10 = some argsDNS.caURL) :=
  ⟨rfl, rfl,
   (default_ca_url baseEnv argsClustered).1 rfl rfl,
   (default_ca_url envDNS argsDNS).2.2 "/tmp/lego123"
     (by intro h; exact absurd h (by decide)) rfl⟩

/-- C10 counterexample: a clustered, non-forced call with an existing but
unreadable buffer does not return on the buffered-certificate fast path —
it returns a read error, not a certificate — yet the buffer file is not
deleted: the deletion is skipped on error exits from the buffer block,
so it is not performed on every non-fast-path return. -/
theorem unconditional_buffer_delete_counterexample :
    envUnreadableBuffer.bufferExists = true ∧
    (updateCertificate envUnreadableBuffer argsClustered).1 =
      Outcome.failure "Failed reading cluster certificate file" ∧
    (updateCertificate envUnreadableBuffer argsClustered).2.bufferDeleted = false :=
  ⟨rfl, rfl, rfl⟩

/-- C10 amended: whenever the buffer file exists and the call does not
terminate inside the cluster-buffer block — in particular whenever force
is set, or the daemon is not clustered, or the buffer is readable and
valid but stale — the buffer file is deleted before the active
certificate is loaded. -/
theorem buffer_delete_before_load (env : Env) (a : Args)
    (hb : env.bufferExists = true)
    (h : a.force = true ∨ a.clustered = false ∨
      (∃ cb kb c, env.clusterCertRead = some cb ∧ env.clusterKeyRead = some kb ∧
        env.clusterKeyPair = some () ∧ env.clusterParsed = some c ∧
        certificateNeedsUpdate env.now a.domain c = true)) :
    (updateCertificate env a).2.bufferDeleted = true := by
  have h1 : updateCertificate env a = afterBuffer env a := by
    rcases h with hf | hcl | ⟨cb, kb, c, hr, hk, hkp, hpp, hstale⟩
    · simp [updateCertificate, hf]
    · simp [updateCertificate, hcl]
    · cases hf2 : a.force with
      | true => simp [updateCertificate, hf2]
      | false =>
        cases hc2 : a.clustered with
        | false => simp [updateCertificate, hc2]
        | true => simp [updateCertificate, hf2, hc2, hb, hr, hk, hkp, hpp, hstale]
  rw [h1, afterBuffer_bufferDeleted, hb]

/-- Witness for the amended C10: a forced call with an existing fresh
buffer still deletes the buffer file. -/
theorem buffer_delete_before_load_witness :
    envFresh.bufferExists = true ∧ argsForced.force = true ∧
    (updateCertificate envFresh argsForced).2.bufferDeleted = true :=
  ⟨rfl, rfl, buffer_delete_before_load envFresh argsForced rfl (Or.inl rfl)⟩

end Acme
